import Mathlib

/-! LocalSimpleDataProvider: the synchronous query facade.

A shallow embedding of `src/core/library/LocalSimpleDataProvider.cpp`.

* A `const char*` argument is an `Option String`: `none` is the null pointer,
  `some s` a pointer to the NUL-terminated text `s`.
* Converting a `const char*` to `std::string` raises on the null pointer; in
  `QueryTracksByCategory` both conversions stand inside the `try` block, so
  the exception is caught there before anything is enqueued.
* `library->Enqueue(query, ILibrary::QuerySynchronous)` is a call into the
  query engine, which lives outside this file.  The engine is a parameter:
  a function from the queries enqueued before and the query enqueued now to
  what the call does (it raises, or it returns and leaves the query with a
  status and a result).
* Every operation takes the list of queries enqueued so far and returns,
  with its result, that list extended by the queries it enqueued itself.
* `int64_t` and `int` values are `Int`, `uint64_t` and `size_t` values are
  `Nat`; the two conversions on the return path of `savePlaylist` are the
  explicit wrap-arounds `toUInt64` and `toInt64`.
-/

namespace LocalSimpleDataProvider

/-! ## Data model -/

/-- Modelled from the spec: the lifecycle status of a Query Unit, whose
declaration (`IQuery`) is not part of the sources at hand.  The spec draws
it from not started, running, finished, failed. -/
inductive Status where
  | NotStarted
  | Running
  | Finished
  | Failed
  deriving DecidableEq, Repr

/-- The three ways the facade builds the `trackList` argument it hands to
`savePlaylist` and `appendToPlaylist`. -/
inductive TrackListArg where
  /-- The value `std::make_shared<TrackList>(library, ids, idCount)`. -/
  | fromIds (ids : List Int) (idCount : Nat)
  /-- The value `query->Result()` of a finished external-id resolution. -/
  | resolved (result : List Int)
  /-- The caller's own `ITrackList*`, possibly null. -/
  | sdk (trackList : Option (List Int))
  deriving DecidableEq, Repr

/-- The query units the facade constructs, with the constructor arguments as
the source passes them.  `limitOffset` is `some (limit, offset)` when
`SetLimitAndOffset` was called on the unit. -/
inductive Query where
  | SearchTrackListQuery (filter : String) (limitOffset : Option (Int × Int))
  /-- The unit `TrackMetadataQuery(target, library)`; `target` is a
  `LibraryTrack` with the given id and, when set, `external_id` value. -/
  | TrackMetadataQuery (targetId : Int) (externalId : Option String)
  | GetPlaylistQuery (playlistId : Int) (limitOffset : Option (Int × Int))
  /-- The unit `CategoryTrackListQuery(library, column, id, filter)`; the
  constructor takes `column` and `filter` as `std::string`. -/
  | CategoryTrackListQuery (categoryType : String) (selectedId : Int)
      (filter : String) (limitOffset : Option (Int × Int))
  | CategoryListQuery (type : Option String) (filter : String)
  | AlbumListQuery (categoryIdName : String) (categoryIdValue : Int) (filter : String)
  | SavePlaylistQuery_Replace (playlistId : Int) (trackList : TrackListArg)
  | SavePlaylistQuery_Rename (playlistId : Int) (playlistName : String)
  | SavePlaylistQuery_Save (playlistName : Option String) (trackList : TrackListArg)
  | DeletePlaylistQuery (playlistId : Int)
  | AppendPlaylistQuery (playlistId : Int) (trackList : TrackListArg) (offset : Int)
  | ExternalIdListToTrackListQuery (externalIds : List String) (externalIdCount : Nat)
  deriving DecidableEq, Repr

/-- What can be read off a query unit after `Enqueue` returned. -/
structure QueryResult where
  /-- The pointer `GetSdkResult()` / `target->GetSdkValue()` gives, as an
  opaque handle; `none` is the null pointer. -/
  sdkResult : Option Nat
  /-- The value of `GetPlaylistId()` on a `SavePlaylistQuery`. -/
  playlistId : Int
  /-- The value of `Result()` on an `ExternalIdListToTrackListQuery`. -/
  trackList : List Int
  deriving DecidableEq, Repr

/-- What one call of `library->Enqueue(query, QuerySynchronous)` does. -/
inductive Outcome where
  /-- The call raised an exception. -/
  | throws
  /-- The call returned; afterwards `GetStatus()` is `status`. -/
  | done (status : Status) (result : QueryResult)
  deriving DecidableEq, Repr

/-- The query engine behind `ILibraryPtr`: what `Enqueue` does with a query,
given the queries enqueued before it (oldest first). -/
abbrev ILibrary := List Query → Query → Outcome

/-- How a call of a facade operation ends. -/
inductive Exec (α : Type) where
  /-- It returned `value`. -/
  | ret (value : α)
  /-- An exception left the operation and reached the caller. -/
  | raised
  /-- It read through a null pointer (`strlen(NULL)`). -/
  | nullDeref
  deriving DecidableEq, Repr

/-- A finished call: how it ended and every query enqueued up to then. -/
structure Run (α : Type) where
  result : Exec α
  log : List Query
  deriving DecidableEq, Repr

/-- The C function `strlen` on a non-null pointer to the text `s`, the
characters before the terminating NUL. -/
def strlen (s : String) : Nat := s.length

/-- Conversion of an `int64_t` to `uint64_t`. -/
def toUInt64 (x : Int) : Nat := (x % 18446744073709551616).toNat

/-- Conversion of a `uint64_t` to `int64_t`. -/
def toInt64 (n : Nat) : Int :=
  if n % 18446744073709551616 < 9223372036854775808 then (n % 18446744073709551616 : Nat)
  else ((n % 18446744073709551616 : Nat) : Int) - 18446744073709551616

/-- Whether `x` is a value of type `int64_t`. -/
def isInt64 (x : Int) : Prop := -9223372036854775808 ≤ x ∧ x < 9223372036854775808

instance (x : Int) : Decidable (isInt64 x) := by unfold isInt64; infer_instance

/-- Whether `Enqueue` returned and left the query in status `Finished`. -/
def Outcome.finished : Outcome → Bool
  | .done .Finished _ => true
  | _ => false

/-! ## ExternalIdListToTrackListQuery -/

/-- The loop of `OnRun` that builds the statement text. -/
def OnRun_sql (externalIdCount : Nat) : String :=
  let sql := "SELECT id FROM tracks WHERE external_id IN("
  let sql := (List.range externalIdCount).foldl
    (fun sql i => sql ++ (if i == 0 then "?" else ",?")) sql
  sql ++ ");"

/-- The loop of `OnRun` that binds the values: the calls
`BindText(i, externalIds[i])` made, in order, or `none` when an index read
is outside the array. -/
def OnRun_bind (externalIds : List String) (externalIdCount : Nat) :
    Option (List (Nat × String)) :=
  (List.range externalIdCount).foldl
    (fun bound i =>
      match bound, externalIds.get? i with
      | some calls, some text => some (calls ++ [(i, text)])
      | _, _ => none)
    (some [])

/-- The statement `OnRun` steps through: its text and the values bound to
its placeholders, as pairs of position and text. -/
structure Statement where
  sql : String
  bound : List (Nat × String)
  deriving DecidableEq, Repr

/-- The first half of `OnRun`: the statement with its values bound. -/
def OnRun_query (externalIds : List String) (externalIdCount : Nat) : Option Statement :=
  match OnRun_bind externalIds externalIdCount with
  | none => none
  | some bound => some ⟨OnRun_sql externalIdCount, bound⟩

/-- The body of `ExternalIdListToTrackListQuery::OnRun`: `db` gives the
first column of the rows the statement steps through; the result is the
return value and the track list stored in `this->result`. -/
def OnRun (db : Statement → List Int) (externalIds : List String) (externalIdCount : Nat) :
    Option (Bool × List Int) :=
  match OnRun_query externalIds externalIdCount with
  | none => none
  | some query =>
    let result := (db query).foldl (fun result id => result ++ [id]) []
    some (true, result)

/-- The statement text as the specification words it: the fixed head, then
`n` placeholders `?` separated by single commas, then the fixed tail. -/
def specSql (n : Nat) : String :=
  "SELECT id FROM tracks WHERE external_id IN(" ++
    String.intercalate "," (List.replicate n "?") ++ ");"

/-! ## The facade operations -/

/-- The method `LocalSimpleDataProvider::QueryTracks`. -/
def QueryTracks (library : ILibrary) (log : List Query)
    (query : Option String) (limit offset : Int) : Run (Option Nat) :=
  let filter := match query with
    | some q => q
    | none => ""
  let search := Query.SearchTrackListQuery filter
    (if limit ≥ 0 then some (limit, offset) else none)
  match library log search with
  | .throws => ⟨.ret none, log ++ [search]⟩
  | .done status result =>
    if status = Status.Finished then ⟨.ret result.sdkResult, log ++ [search]⟩
    else ⟨.ret none, log ++ [search]⟩

/-- The method `LocalSimpleDataProvider::QueryTrackById`. -/
def QueryTrackById (library : ILibrary) (log : List Query) (trackId : Int) :
    Run (Option Nat) :=
  let search := Query.TrackMetadataQuery trackId none
  match library log search with
  | .throws => ⟨.ret none, log ++ [search]⟩
  | .done status result =>
    if status = Status.Finished then ⟨.ret result.sdkResult, log ++ [search]⟩
    else ⟨.ret none, log ++ [search]⟩

/-- The method `LocalSimpleDataProvider::QueryTrackByExternalId`. -/
def QueryTrackByExternalId (library : ILibrary) (log : List Query)
    (externalId : Option String) : Run (Option Nat) :=
  match externalId with
  | none => ⟨.nullDeref, log⟩
  | some externalId =>
    if strlen externalId ≠ 0 then
      let search := Query.TrackMetadataQuery 0 (some externalId)
      match library log search with
      | .throws => ⟨.ret none, log ++ [search]⟩
      | .done status result =>
        if status = Status.Finished then ⟨.ret result.sdkResult, log ++ [search]⟩
        else ⟨.ret none, log ++ [search]⟩
    else ⟨.ret none, log⟩

/-- The conversion of a `const char*` to `std::string`: the text, or `none`
when the pointer is null and the conversion raises. -/
def std_string (text : Option String) : Option String := text

/-- The method `LocalSimpleDataProvider::QueryTracksByCategory`.  The
constant `constants::Playlists::TABLE_NAME` is declared outside the sources
at hand and is the parameter `TABLE_NAME`.  The whole body is one `try`
block: when `std::string(categoryType)` or the conversion of `filter` for the
`CategoryTrackListQuery` constructor raises, `catch (...)` takes over and
null is returned with nothing enqueued. -/
def QueryTracksByCategory (TABLE_NAME : String) (library : ILibrary) (log : List Query)
    (categoryType : Option String) (selectedId : Int) (filter : Option String)
    (limit offset : Int) : Run (Option Nat) :=
  match std_string categoryType with
  | none => ⟨.ret none, log⟩
  | some category =>
    let constructed : Option (Option (Int × Int) → Query) :=
      if category = TABLE_NAME then some (Query.GetPlaylistQuery selectedId)
      else
        match std_string filter with
        | none => none
        | some filter => some (Query.CategoryTrackListQuery category selectedId filter)
    match constructed with
    | none => ⟨.ret none, log⟩
    | some unit =>
      let search := unit (if limit ≥ 0 then some (limit, offset) else none)
      match library log search with
      | .throws => ⟨.ret none, log ++ [search]⟩
      | .done status result =>
        if status = Status.Finished then ⟨.ret result.sdkResult, log ++ [search]⟩
        else ⟨.ret none, log ++ [search]⟩

/-- The method `LocalSimpleDataProvider::QueryCategory`. -/
def QueryCategory (library : ILibrary) (log : List Query)
    (type filter : Option String) : Run (Option Nat) :=
  let search := Query.CategoryListQuery type
    (match filter with
      | some f => f
      | none => "")
  match library log search with
  | .throws => ⟨.ret none, log ++ [search]⟩
  | .done status result =>
    if status = Status.Finished then ⟨.ret result.sdkResult, log ++ [search]⟩
    else ⟨.ret none, log ++ [search]⟩

/-- The method `LocalSimpleDataProvider::QueryAlbums` with three parameters. -/
def QueryAlbums (library : ILibrary) (log : List Query)
    (categoryIdName : Option String) (categoryIdValue : Int) (filter : Option String) :
    Run (Option Nat) :=
  let search := Query.AlbumListQuery
    (match categoryIdName with
      | some n => n
      | none => "")
    categoryIdValue
    (match filter with
      | some f => f
      | none => "")
  match library log search with
  | .throws => ⟨.ret none, log ++ [search]⟩
  | .done status result =>
    if status = Status.Finished then ⟨.ret result.sdkResult, log ++ [search]⟩
    else ⟨.ret none, log ++ [search]⟩

/-- The overload `LocalSimpleDataProvider::QueryAlbums(const char* filter)`. -/
def QueryAlbums_filter (library : ILibrary) (log : List Query) (filter : Option String) :
    Run (Option Nat) :=
  QueryAlbums library log none (-1) filter

/-- The static helper `savePlaylist`; its return type is `uint64_t`. -/
def savePlaylist (library : ILibrary) (log : List Query) (trackList : TrackListArg)
    (playlistName : Option String) (playlistId : Int) : Run Nat :=
  if playlistId ≠ 0 then
    let query := Query.SavePlaylistQuery_Replace playlistId trackList
    match library log query with
    | .throws => ⟨.ret 0, log ++ [query]⟩
    | .done status _ =>
      if status = Status.Finished then
        match playlistName with
        | none => ⟨.nullDeref, log ++ [query]⟩
        | some name =>
          if strlen name ≠ 0 then
            let query2 := Query.SavePlaylistQuery_Rename playlistId name
            match library (log ++ [query]) query2 with
            | .throws => ⟨.ret 0, log ++ [query] ++ [query2]⟩
            | .done status2 _ =>
              if status2 = Status.Finished then
                ⟨.ret (toUInt64 playlistId), log ++ [query] ++ [query2]⟩
              else ⟨.ret 0, log ++ [query] ++ [query2]⟩
          else ⟨.ret (toUInt64 playlistId), log ++ [query]⟩
      else ⟨.ret 0, log ++ [query]⟩
  else
    let query := Query.SavePlaylistQuery_Save playlistName trackList
    match library log query with
    | .throws => ⟨.ret 0, log ++ [query]⟩
    | .done status result =>
      if status = Status.Finished then ⟨.ret (toUInt64 result.playlistId), log ++ [query]⟩
      else ⟨.ret 0, log ++ [query]⟩

/-- The conversion of `savePlaylist`'s `uint64_t` to the `int64_t` the three
`SavePlaylistWith...` methods return. -/
def returnInt64 (r : Run Nat) : Run Int :=
  match r.result with
  | .ret v => ⟨.ret (toInt64 v), r.log⟩
  | .raised => ⟨.raised, r.log⟩
  | .nullDeref => ⟨.nullDeref, r.log⟩

/-- The method `LocalSimpleDataProvider::SavePlaylistWithIds`. -/
def SavePlaylistWithIds (library : ILibrary) (log : List Query)
    (trackIds : List Int) (trackIdCount : Nat)
    (playlistName : Option String) (playlistId : Int) : Run Int :=
  if (playlistId == 0 && (match playlistName with
      | none => true
      | some name => strlen name == 0)) = true then
    ⟨.ret 0, log⟩
  else
    let trackList := TrackListArg.fromIds trackIds trackIdCount
    returnInt64 (savePlaylist library log trackList playlistName playlistId)

/-- The method `LocalSimpleDataProvider::SavePlaylistWithExternalIds`. -/
def SavePlaylistWithExternalIds (library : ILibrary) (log : List Query)
    (externalIds : List String) (externalIdCount : Nat)
    (playlistName : Option String) (playlistId : Int) : Run Int :=
  if (playlistId == 0 && (match playlistName with
      | none => true
      | some name => strlen name == 0)) = true then
    ⟨.ret 0, log⟩
  else
    let query := Query.ExternalIdListToTrackListQuery externalIds externalIdCount
    match library log query with
    | .throws => ⟨.raised, log ++ [query]⟩
    | .done status result =>
      if status = Status.Finished then
        returnInt64 (savePlaylist library (log ++ [query])
          (TrackListArg.resolved result.trackList) playlistName playlistId)
      else ⟨.ret 0, log ++ [query]⟩

/-- The method `LocalSimpleDataProvider::SavePlaylistWithTrackList`. -/
def SavePlaylistWithTrackList (library : ILibrary) (log : List Query)
    (trackList : Option (List Int))
    (playlistName : Option String) (playlistId : Int) : Run Int :=
  if (playlistId == 0 && (match playlistName with
      | none => true
      | some name => strlen name == 0)) = true then
    ⟨.ret 0, log⟩
  else
    returnInt64 (savePlaylist library log (TrackListArg.sdk trackList) playlistName playlistId)

/-- The method `LocalSimpleDataProvider::RenamePlaylist`. -/
def RenamePlaylist (library : ILibrary) (log : List Query)
    (playlistId : Int) (name : Option String) : Run Bool :=
  match name with
  | none => ⟨.nullDeref, log⟩
  | some name =>
    if strlen name ≠ 0 then
      let query := Query.SavePlaylistQuery_Rename playlistId name
      match library log query with
      | .throws => ⟨.ret false, log ++ [query]⟩
      | .done status _ =>
        if status = Status.Finished then ⟨.ret true, log ++ [query]⟩
        else ⟨.ret false, log ++ [query]⟩
    else ⟨.ret false, log⟩

/-- The method `LocalSimpleDataProvider::DeletePlaylist`. -/
def DeletePlaylist (library : ILibrary) (log : List Query) (playlistId : Int) : Run Bool :=
  let query := Query.DeletePlaylistQuery playlistId
  match library log query with
  | .throws => ⟨.ret false, log ++ [query]⟩
  | .done status _ =>
    if status = Status.Finished then ⟨.ret true, log ++ [query]⟩
    else ⟨.ret false, log ++ [query]⟩

/-- The static helper `appendToPlaylist`. -/
def appendToPlaylist (library : ILibrary) (log : List Query)
    (playlistId : Int) (trackList : TrackListArg) (offset : Int) : Run Bool :=
  let query := Query.AppendPlaylistQuery playlistId trackList offset
  match library log query with
  | .throws => ⟨.ret false, log ++ [query]⟩
  | .done status _ =>
    if status = Status.Finished then ⟨.ret true, log ++ [query]⟩
    else ⟨.ret false, log ++ [query]⟩

/-- The method `LocalSimpleDataProvider::AppendToPlaylistWithIds`. -/
def AppendToPlaylistWithIds (library : ILibrary) (log : List Query)
    (playlistId : Int) (ids : List Int) (idCount : Nat) (offset : Int) : Run Bool :=
  let trackList := TrackListArg.fromIds ids idCount
  appendToPlaylist library log playlistId trackList offset

/-- The method `LocalSimpleDataProvider::AppendToPlaylistWithExternalIds`; its
last statement `return 0;` gives the `bool` value `false`. -/
def AppendToPlaylistWithExternalIds (library : ILibrary) (log : List Query)
    (playlistId : Int) (externalIds : List String) (externalIdCount : Nat) (offset : Int) :
    Run Bool :=
  let query := Query.ExternalIdListToTrackListQuery externalIds externalIdCount
  match library log query with
  | .throws => ⟨.raised, log ++ [query]⟩
  | .done status result =>
    if status = Status.Finished then
      appendToPlaylist library (log ++ [query]) playlistId
        (TrackListArg.resolved result.trackList) offset
    else ⟨.ret false, log ++ [query]⟩

/-- The method `LocalSimpleDataProvider::AppendToPlaylistWithTrackList`. -/
def AppendToPlaylistWithTrackList (library : ILibrary) (log : List Query)
    (playlistId : Int) (trackList : Option (List Int)) (offset : Int) : Run Bool :=
  let result := appendToPlaylist library log playlistId (TrackListArg.sdk trackList) offset
  result

/-! ## Engines used in the worked examples -/

/-- An engine on which every query finishes; a created playlist gets id 7
and every external id resolves to track 1. -/
def finishingLibrary : ILibrary :=
  fun _ _ => .done .Finished ⟨some 1, 7, [1]⟩

/-- An engine whose `Enqueue` raises on every query. -/
def throwingLibrary : ILibrary :=
  fun _ _ => .throws

/-- An engine on which every query ends in status `Failed`. -/
def failingLibrary : ILibrary :=
  fun _ _ => .done .Failed ⟨none, 0, []⟩

/-- An engine whose `Enqueue` raises on an external-id resolution query and
finishes every other query. -/
def resolutionRaisingLibrary : ILibrary :=
  fun _ query =>
    match query with
    | .ExternalIdListToTrackListQuery _ _ => .throws
    | _ => .done .Finished ⟨some 1, 7, [1]⟩

/-! ## Auxiliary facts -/

theorem strlen_eq_zero_iff (s : String) : strlen s = 0 ↔ s = "" := by
  cases s with
  | mk data =>
    unfold strlen
    simp only [String.length, List.length_eq_zero]
    constructor
    · intro h; subst h; rfl
    · intro h
      have h2 := congrArg String.data h
      simpa using h2

theorem toUInt64_ne_zero (x : Int) (hx : isInt64 x) (h0 : x ≠ 0) : toUInt64 x ≠ 0 := by
  unfold isInt64 at hx
  unfold toUInt64
  omega

theorem toInt64_toUInt64 (x : Int) (hx : isInt64 x) : toInt64 (toUInt64 x) = x := by
  unfold isInt64 at hx
  unfold toInt64 toUInt64
  split <;> omega

theorem intercalate_go_snoc (s a : String) (l : List String) (acc : String) :
    String.intercalate.go acc s (l ++ [a]) = String.intercalate.go acc s l ++ s ++ a := by
  induction l generalizing acc with
  | nil => simp [String.intercalate.go]
  | cons b l ih => simp [String.intercalate.go, ih]

theorem sqlLoop_succ (n : Nat) (head : String) :
    (List.range (n + 1)).foldl (fun sql i => sql ++ (if i == 0 then "?" else ",?")) head
      = head ++ String.intercalate "," (List.replicate (n + 1) "?") := by
  induction n with
  | zero => simp [String.intercalate, String.intercalate.go, List.range_succ]
  | succ n ih =>
    rw [List.range_succ, List.foldl_append, ih]
    have h : List.replicate (n + 1 + 1) "?" = List.replicate (n + 1) "?" ++ ["?"] := by
      rw [← List.replicate_succ']
    rw [h]
    simp only [List.replicate_succ, String.intercalate, List.cons_append, intercalate_go_snoc,
      List.foldl_cons, List.foldl_nil]
    simp [String.append_assoc]

theorem OnRun_sql_eq_specSql (n : Nat) : OnRun_sql n = specSql n := by
  cases n with
  | zero => rfl
  | succ n => simp only [OnRun_sql, specSql, sqlLoop_succ]

theorem sqlLoop_count (n : Nat) (head : String) :
    ((List.range n).foldl
        (fun sql i => sql ++ (if i == 0 then "?" else ",?")) head).data.count '?'
      = head.data.count '?' + n := by
  induction n with
  | zero => simp
  | succ n ih =>
    rw [List.range_succ, List.foldl_append, List.foldl_cons, List.foldl_nil,
      String.data_append, List.count_append, ih]
    by_cases h0 : n = 0
    · subst h0; simp
    · have h1 : (n == 0) = false := by simpa using h0
      have h2 : (",?" : String).data.count '?' = 1 := by decide
      simp only [h1, Bool.false_eq_true, if_false, h2]
      omega

theorem OnRun_sql_count (n : Nat) : (OnRun_sql n).data.count '?' = n := by
  unfold OnRun_sql
  have h1 : ("SELECT id FROM tracks WHERE external_id IN(" : String).data.count '?' = 0 := by
    decide
  have h2 : (");" : String).data.count '?' = 0 := by decide
  rw [String.data_append, List.count_append, sqlLoop_count, h1, h2]
  omega

theorem OnRun_bind_take (externalIds : List String) (n : Nat) (h : n ≤ externalIds.length) :
    OnRun_bind externalIds n = some (externalIds.take n).enum := by
  unfold OnRun_bind
  induction n with
  | zero => simp
  | succ n ih =>
    have hn : n < externalIds.length := by omega
    rw [List.range_succ, List.foldl_append, ih (by omega)]
    rw [List.foldl_cons, List.foldl_nil, List.take_succ]
    have hg : externalIds.get? n = some externalIds[n] := by
      simp [List.getElem?_eq_getElem hn]
    have hg2 : externalIds[n]? = some externalIds[n] := List.getElem?_eq_getElem hn
    rw [hg, hg2]
    simp only [Option.toList, List.enum, List.enumFrom_append, List.length_take,
      List.enumFrom_cons, List.enumFrom_nil, Nat.zero_add, Nat.min_eq_left (Nat.le_of_lt hn)]

theorem foldl_snoc_eq (rows acc : List Int) :
    rows.foldl (fun result id => result ++ [id]) acc = acc ++ rows := by
  induction rows generalizing acc with
  | nil => simp
  | cons r rows ih => simp [ih]

/-! ## Playlist save -/

/-- C1: on the replace path (`playlistId != 0`, a non-null name) `savePlaylist`
returns `playlistId` exactly when the Replace query finished and the name is
empty or the Rename query finished, and returns 0 in every other case; the
Rename query is enqueued exactly when the Replace query finished and the name
is not empty.  The `uint64_t` the helper returns converts back to `playlistId`
in the `int64_t` the public methods return. -/
theorem C1_savePlaylist_replace (library : ILibrary) (log : List Query)
    (trackList : TrackListArg) (sdkList : Option (List Int)) (name : String) (playlistId : Int)
    (hid : playlistId ≠ 0) (hrange : isInt64 playlistId) :
    (savePlaylist library log trackList (some name) playlistId
        = ⟨.ret (if (library log (.SavePlaylistQuery_Replace playlistId trackList)).finished = true ∧
                    (name = "" ∨ (library (log ++ [.SavePlaylistQuery_Replace playlistId trackList])
                      (.SavePlaylistQuery_Rename playlistId name)).finished = true)
                 then toUInt64 playlistId else 0),
           log ++ [.SavePlaylistQuery_Replace playlistId trackList] ++
             (if (library log (.SavePlaylistQuery_Replace playlistId trackList)).finished = true ∧
                 name ≠ ""
              then [.SavePlaylistQuery_Rename playlistId name] else [])⟩)
    ∧ ((savePlaylist library log trackList (some name) playlistId).result
          = .ret (toUInt64 playlistId) ↔
        ((library log (.SavePlaylistQuery_Replace playlistId trackList)).finished = true ∧
          (name = "" ∨ (library (log ++ [.SavePlaylistQuery_Replace playlistId trackList])
            (.SavePlaylistQuery_Rename playlistId name)).finished = true)))
    ∧ ((SavePlaylistWithTrackList library log sdkList (some name) playlistId).result
          = .ret playlistId ↔
        ((library log (.SavePlaylistQuery_Replace playlistId (.sdk sdkList))).finished = true ∧
          (name = "" ∨ (library (log ++ [.SavePlaylistQuery_Replace playlistId (.sdk sdkList)])
            (.SavePlaylistQuery_Rename playlistId name)).finished = true)))
    ∧ toUInt64 playlistId ≠ 0 ∧ toInt64 (toUInt64 playlistId) = playlistId
    ∧ (0 < playlistId → (toUInt64 playlistId : Int) = playlistId) := by
  have hne := toUInt64_ne_zero playlistId hrange hid
  have hback := toInt64_toUInt64 playlistId hrange
  have hlen := strlen_eq_zero_iff name
  have key : ∀ tl : TrackListArg, savePlaylist library log tl (some name) playlistId
        = ⟨.ret (if (library log (.SavePlaylistQuery_Replace playlistId tl)).finished = true ∧
                    (name = "" ∨ (library (log ++ [.SavePlaylistQuery_Replace playlistId tl])
                      (.SavePlaylistQuery_Rename playlistId name)).finished = true)
                 then toUInt64 playlistId else 0),
           log ++ [.SavePlaylistQuery_Replace playlistId tl] ++
             (if (library log (.SavePlaylistQuery_Replace playlistId tl)).finished = true ∧
                 name ≠ ""
              then [.SavePlaylistQuery_Rename playlistId name] else [])⟩ := by
    intro tl
    unfold savePlaylist
    rw [if_pos hid]
    cases h1 : library log (.SavePlaylistQuery_Replace playlistId tl) with
    | throws => simp [h1, Outcome.finished]
    | done status result =>
      by_cases hn : name = ""
      · subst hn
        have hz : strlen "" = 0 := rfl
        cases status <;> simp [h1, Outcome.finished, hz]
      · have hl : strlen name ≠ 0 := fun h => hn (hlen.mp h)
        cases h2 : library (log ++ [.SavePlaylistQuery_Replace playlistId tl])
            (.SavePlaylistQuery_Rename playlistId name) with
        | throws => cases status <;> simp [h1, h2, Outcome.finished, hn, hl]
        | done status2 result2 =>
          cases status <;> cases status2 <;> simp [h1, h2, Outcome.finished, hn, hl]
  have hpos : 0 < playlistId → (toUInt64 playlistId : Int) = playlistId := by
    intro hp
    unfold isInt64 at hrange
    unfold toUInt64
    omega
  refine ⟨key trackList, ?_, ?_, hne, hback, hpos⟩
  · rw [key trackList]
    constructor
    · intro h
      by_contra hc
      simp only [if_neg hc, Exec.ret.injEq] at h
      exact hne h.symm
    · intro h
      simp only [if_pos h]
  · have hguard : ¬ ((playlistId == 0 && (match (some name : Option String) with
        | none => true
        | some name => strlen name == 0)) = true) := by
      simp [hid]
    have e : SavePlaylistWithTrackList library log sdkList (some name) playlistId
        = returnInt64 (savePlaylist library log (.sdk sdkList) (some name) playlistId) := by
      unfold SavePlaylistWithTrackList
      rw [if_neg hguard]
    rw [e, key, returnInt64]
    constructor
    · intro h
      by_contra hc
      simp only [if_neg hc, Exec.ret.injEq] at h
      simp [toInt64] at h
      exact hid h.symm
    · intro h
      simp only [if_pos h, hback]

theorem C1_savePlaylist_replace_witness :
    savePlaylist finishingLibrary [] (.fromIds [1, 2] 2) (some "Mix") 5
      = ⟨.ret 5, [.SavePlaylistQuery_Replace 5 (.fromIds [1, 2] 2),
                  .SavePlaylistQuery_Rename 5 "Mix"]⟩ := by
  have h := (C1_savePlaylist_replace finishingLibrary [] (.fromIds [1, 2] 2) none "Mix" 5
    (by decide) (by decide)).1
  simpa [finishingLibrary, Outcome.finished, toUInt64] using h

/-- C2: with `playlistId == 0` and a null or empty name each of the three
`SavePlaylistWith...` methods returns 0 and enqueues nothing, the external-id
resolution query included. -/
theorem C2_save_guard (library : ILibrary) (log : List Query)
    (trackIds : List Int) (trackIdCount : Nat)
    (externalIds : List String) (externalIdCount : Nat)
    (trackList : Option (List Int)) (playlistName : Option String) (playlistId : Int)
    (hid : playlistId = 0) (hname : playlistName = none ∨ playlistName = some "") :
    SavePlaylistWithIds library log trackIds trackIdCount playlistName playlistId
        = ⟨.ret 0, log⟩
    ∧ SavePlaylistWithExternalIds library log externalIds externalIdCount playlistName playlistId
        = ⟨.ret 0, log⟩
    ∧ SavePlaylistWithTrackList library log trackList playlistName playlistId
        = ⟨.ret 0, log⟩ := by
  subst hid
  rcases hname with h | h <;> subst h <;>
    simp [SavePlaylistWithIds, SavePlaylistWithExternalIds, SavePlaylistWithTrackList, strlen]

theorem C2_save_guard_witness :
    SavePlaylistWithIds throwingLibrary [] [] 0 (some "") 0 = ⟨.ret 0, []⟩ :=
  (C2_save_guard throwingLibrary [] [] 0 [] 0 none (some "") 0 rfl (Or.inr rfl)).1

/-- C4: on the create path (`playlistId == 0`, a non-empty name) `savePlaylist`
enqueues the Save query and nothing else; when that query finished the result
is the playlist id the query reports (non-zero when the reported id is), and
otherwise it is 0.  `SavePlaylistWithIds` hands the same id to its caller. -/
theorem C4_savePlaylist_create (library : ILibrary) (log : List Query)
    (trackList : TrackListArg) (trackIds : List Int) (trackIdCount : Nat) (name : String)
    (hname : name ≠ "") :
    (savePlaylist library log trackList (some name) 0
        = ⟨.ret (match library log (.SavePlaylistQuery_Save (some name) trackList) with
                 | .done .Finished result => toUInt64 result.playlistId
                 | _ => 0),
           log ++ [.SavePlaylistQuery_Save (some name) trackList]⟩)
    ∧ (SavePlaylistWithIds library log trackIds trackIdCount (some name) 0
        = ⟨.ret (match library log
                    (.SavePlaylistQuery_Save (some name) (.fromIds trackIds trackIdCount)) with
                 | .done .Finished result => toInt64 (toUInt64 result.playlistId)
                 | _ => 0),
           log ++ [.SavePlaylistQuery_Save (some name) (.fromIds trackIds trackIdCount)]⟩)
    ∧ (∀ id : Int, isInt64 id →
        toInt64 (toUInt64 id) = id ∧ (id ≠ 0 → toUInt64 id ≠ 0)) := by
  have key : ∀ tl : TrackListArg, savePlaylist library log tl (some name) 0
        = ⟨.ret (match library log (.SavePlaylistQuery_Save (some name) tl) with
                 | .done .Finished result => toUInt64 result.playlistId
                 | _ => 0),
           log ++ [.SavePlaylistQuery_Save (some name) tl]⟩ := by
    intro tl
    unfold savePlaylist
    cases h1 : library log (.SavePlaylistQuery_Save (some name) tl) with
    | throws => simp [h1]
    | done status result => cases status <;> simp [h1]
  refine ⟨key trackList, ?_, fun id hid => ⟨toInt64_toUInt64 id hid, toUInt64_ne_zero id hid⟩⟩
  have hl : strlen name ≠ 0 := fun h => hname ((strlen_eq_zero_iff name).mp h)
  have hguard : ¬ (((0 : Int) == 0 && (match (some name : Option String) with
      | none => true
      | some name => strlen name == 0)) = true) := by
    simp [hl]
  have e : SavePlaylistWithIds library log trackIds trackIdCount (some name) 0
      = returnInt64 (savePlaylist library log (.fromIds trackIds trackIdCount) (some name) 0) := by
    unfold SavePlaylistWithIds
    rw [if_neg hguard]
  rw [e, key, returnInt64]
  cases h1 : library log (.SavePlaylistQuery_Save (some name) (.fromIds trackIds trackIdCount)) with
  | throws => simp [toInt64]
  | done status result => cases status <;> simp [toInt64]

theorem C4_savePlaylist_create_witness :
    SavePlaylistWithIds finishingLibrary [] [1, 2, 3] 3 (some "Favorites") 0
      = ⟨.ret 7, [.SavePlaylistQuery_Save (some "Favorites") (.fromIds [1, 2, 3] 3)]⟩ := by
  have h := (C4_savePlaylist_create finishingLibrary [] (.fromIds [1, 2, 3] 3) [1, 2, 3] 3
    "Favorites" (by decide)).2.1
  simpa [finishingLibrary, toUInt64, toInt64] using h

/-- C5: `RenamePlaylist` with an empty name returns false and enqueues
nothing; with a non-empty name it enqueues the Rename query and nothing else,
and returns true exactly when that query finished. -/
theorem C5_RenamePlaylist (library : ILibrary) (log : List Query)
    (playlistId : Int) (name : String) :
    RenamePlaylist library log playlistId (some name)
      = if name = "" then ⟨.ret false, log⟩
        else ⟨.ret (library log (.SavePlaylistQuery_Rename playlistId name)).finished,
              log ++ [.SavePlaylistQuery_Rename playlistId name]⟩ := by
  unfold RenamePlaylist
  by_cases hn : name = ""
  · subst hn
    have hz : strlen "" = 0 := rfl
    simp [hz]
  · have hl : strlen name ≠ 0 := fun h => hn ((strlen_eq_zero_iff name).mp h)
    cases h1 : library log (.SavePlaylistQuery_Rename playlistId name) with
    | throws => simp [h1, hn, hl, Outcome.finished]
    | done status result => cases status <;> simp [h1, hn, hl, Outcome.finished]

theorem C5_RenamePlaylist_witness :
    RenamePlaylist finishingLibrary [] 5 (some "") = ⟨.ret false, []⟩ :=
  C5_RenamePlaylist finishingLibrary [] 5 ""

/-! ## Playlist append -/

/-- The part of the append operations that holds on every engine whose
`Enqueue` of the resolution query returns: `appendToPlaylist` returns true
exactly when its `AppendPlaylistQuery` finished, and
`AppendToPlaylistWithExternalIds` gives the boolean false and enqueues no
append query if the resolution ended in a status other than `Finished`, and
otherwise gives exactly what `appendToPlaylist` gives on the resolved list. -/
theorem append_result_when_resolution_returns (library : ILibrary) (log : List Query)
    (playlistId : Int) (trackList : TrackListArg) (offset : Int)
    (externalIds : List String) (externalIdCount : Nat)
    (status : Status) (resolution : QueryResult)
    (hresolve : library log (.ExternalIdListToTrackListQuery externalIds externalIdCount)
      = .done status resolution) :
    (appendToPlaylist library log playlistId trackList offset
        = ⟨.ret (library log (.AppendPlaylistQuery playlistId trackList offset)).finished,
           log ++ [.AppendPlaylistQuery playlistId trackList offset]⟩)
    ∧ ((appendToPlaylist library log playlistId trackList offset).result = .ret true ↔
        (library log (.AppendPlaylistQuery playlistId trackList offset)).finished = true)
    ∧ (AppendToPlaylistWithExternalIds library log playlistId externalIds externalIdCount offset
        = if status = Status.Finished then
            appendToPlaylist library
              (log ++ [.ExternalIdListToTrackListQuery externalIds externalIdCount])
              playlistId (.resolved resolution.trackList) offset
          else
            ⟨.ret false, log ++ [.ExternalIdListToTrackListQuery externalIds externalIdCount]⟩) := by
  have key : appendToPlaylist library log playlistId trackList offset
        = ⟨.ret (library log (.AppendPlaylistQuery playlistId trackList offset)).finished,
           log ++ [.AppendPlaylistQuery playlistId trackList offset]⟩ := by
    unfold appendToPlaylist
    cases h1 : library log (.AppendPlaylistQuery playlistId trackList offset) with
    | throws => simp [h1, Outcome.finished]
    | done st result => cases st <;> simp [h1, Outcome.finished]
  refine ⟨key, ?_, ?_⟩
  · rw [key]; simp
  · unfold AppendToPlaylistWithExternalIds
    simp only [hresolve]

theorem append_result_failed_resolution_example :
    AppendToPlaylistWithExternalIds failingLibrary [] 5 ["a"] 1 0
      = ⟨.ret false, [.ExternalIdListToTrackListQuery ["a"] 1]⟩ := by
  have h := (append_result_when_resolution_returns failingLibrary [] 5 (.resolved []) 0 ["a"] 1
    .Failed ⟨none, 0, []⟩ rfl).2.2
  simpa using h

/-- C6: on an engine whose `Enqueue` raises on the resolution query, that
query does not finish, yet `AppendToPlaylistWithExternalIds(9, ["a", "b"], 2, 3)`
does not return false: the `Enqueue` stands outside any `try` block and the
exception leaves the method.  `appendToPlaylist` itself catches a raising
`Enqueue` and returns false, and returns true when its query finished. -/
theorem C6_append_resolution_raises :
    (resolutionRaisingLibrary [] (.ExternalIdListToTrackListQuery ["a", "b"] 2)).finished = false
    ∧ AppendToPlaylistWithExternalIds resolutionRaisingLibrary [] 9 ["a", "b"] 2 3
        = ⟨.raised, [.ExternalIdListToTrackListQuery ["a", "b"] 2]⟩
    ∧ (AppendToPlaylistWithExternalIds resolutionRaisingLibrary [] 9 ["a", "b"] 2 3).result
        ≠ .ret false
    ∧ appendToPlaylist throwingLibrary [] 9 (.resolved [1]) 3
        = ⟨.ret false, [.AppendPlaylistQuery 9 (.resolved [1]) 3]⟩
    ∧ appendToPlaylist resolutionRaisingLibrary [] 9 (.resolved [1]) 3
        = ⟨.ret true, [.AppendPlaylistQuery 9 (.resolved [1]) 3]⟩ := by
  refine ⟨rfl, ?_, ?_, ?_, ?_⟩
  · simp [AppendToPlaylistWithExternalIds, resolutionRaisingLibrary]
  · simp [AppendToPlaylistWithExternalIds, resolutionRaisingLibrary]
  · simp [appendToPlaylist, throwingLibrary]
  · simp [appendToPlaylist, resolutionRaisingLibrary]

/-! ## The external-id resolver -/

/-- C7: for an array of `n` external ids the statement text `OnRun` builds is
the fixed head, `n` placeholders `?` separated by single commas, and the fixed
tail; it holds exactly `n` characters `?`, is the same for every array of that
length, and `externalIds[i]` is bound at position `i`. -/
theorem C7_OnRun_parameterized (db : Statement → List Int)
    (externalIds other : List String) (n : Nat)
    (hlen : externalIds.length = n) (hother : other.length = n) :
    OnRun_sql n = specSql n
    ∧ (OnRun_sql n).data.count '?' = n
    ∧ OnRun_query externalIds n = some ⟨specSql n, externalIds.enum⟩
    ∧ (OnRun_query externalIds n).map Statement.sql = (OnRun_query other n).map Statement.sql
    ∧ (∀ (i : Nat) (hi : i < externalIds.length),
        externalIds.enum.get? i = some (i, externalIds.get ⟨i, hi⟩))
    ∧ OnRun db externalIds n = some (true, db ⟨specSql n, externalIds.enum⟩) := by
  have hq : ∀ ids : List String, ids.length = n →
      OnRun_query ids n = some ⟨specSql n, ids.enum⟩ := by
    intro ids h
    unfold OnRun_query
    rw [OnRun_bind_take ids n (by omega), ← h, List.take_length, h, OnRun_sql_eq_specSql]
  refine ⟨OnRun_sql_eq_specSql n, OnRun_sql_count n, hq externalIds hlen, ?_, ?_, ?_⟩
  · rw [hq externalIds hlen, hq other hother]; rfl
  · intro i hi
    simp [List.enum, List.enumFrom_eq_zip_range', hi]
  · unfold OnRun
    rw [hq externalIds hlen]
    simp [foldl_snoc_eq]

theorem C7_OnRun_parameterized_witness :
    OnRun_query ["a", "?);"] 2
      = some ⟨"SELECT id FROM tracks WHERE external_id IN(?,?);",
              [(0, "a"), (1, "?);")]⟩ :=
  (C7_OnRun_parameterized (fun _ => []) ["a", "?);"] ["b", "c"] 2
    rfl rfl).2.2.1

/-! ## Track lookup by external id -/

/-- C8: `QueryTrackByExternalId` with an empty external id returns null and
enqueues nothing; with a non-empty one it enqueues one `TrackMetadataQuery`
and nothing else, and its result is non-null only if that query finished. -/
theorem C8_QueryTrackByExternalId (library : ILibrary) (log : List Query)
    (externalId : String) :
    (QueryTrackByExternalId library log (some externalId)
      = if externalId = "" then ⟨.ret none, log⟩
        else ⟨.ret (match library log (.TrackMetadataQuery 0 (some externalId)) with
                    | .done .Finished result => result.sdkResult
                    | _ => none),
              log ++ [.TrackMetadataQuery 0 (some externalId)]⟩)
    ∧ (∀ track : Nat,
        (QueryTrackByExternalId library log (some externalId)).result = .ret (some track) →
          externalId ≠ "" ∧
          (library log (.TrackMetadataQuery 0 (some externalId))).finished = true) := by
  have key : QueryTrackByExternalId library log (some externalId)
      = if externalId = "" then ⟨.ret none, log⟩
        else ⟨.ret (match library log (.TrackMetadataQuery 0 (some externalId)) with
                    | .done .Finished result => result.sdkResult
                    | _ => none),
              log ++ [.TrackMetadataQuery 0 (some externalId)]⟩ := by
    unfold QueryTrackByExternalId
    by_cases hn : externalId = ""
    · subst hn
      have hz : strlen "" = 0 := rfl
      simp [hz]
    · have hl : strlen externalId ≠ 0 := fun h => hn ((strlen_eq_zero_iff externalId).mp h)
      cases h1 : library log (.TrackMetadataQuery 0 (some externalId)) with
      | throws => simp [h1, hn, hl]
      | done status result => cases status <;> simp [h1, hn, hl]
  refine ⟨key, ?_⟩
  intro track h
  rw [key] at h
  by_cases hn : externalId = ""
  · simp [hn] at h
  · refine ⟨hn, ?_⟩
    cases h1 : library log (.TrackMetadataQuery 0 (some externalId)) with
    | throws => simp [h1, hn] at h
    | done status result => cases status <;> simp [h1, hn, Outcome.finished] at h ⊢

theorem C8_QueryTrackByExternalId_witness :
    QueryTrackByExternalId finishingLibrary [] (some "") = ⟨.ret none, []⟩ :=
  (C8_QueryTrackByExternalId finishingLibrary [] "").1

/-! ## Failures at the facade boundary -/

/-- The operations that enqueue inside `try`/`catch (...)` give their sentinel
whenever their query did not finish, a raising `Enqueue` included; so do the
two external-id operations when `Enqueue` of the resolution query returns
with a status other than `Finished`. -/
theorem guarded_operations_return_sentinel (library : ILibrary) (log : List Query)
    (text category : String) (name : Option String) (limit offset id : Int)
    (trackList : TrackListArg) (externalIds : List String) (count : Nat)
    (TABLE_NAME : String) :
    ((library log (.SearchTrackListQuery text
          (if limit ≥ 0 then some (limit, offset) else none))).finished = false →
        (QueryTracks library log (some text) limit offset).result = .ret none)
    ∧ ((library log (.TrackMetadataQuery id none)).finished = false →
        (QueryTrackById library log id).result = .ret none)
    ∧ ((library log (.TrackMetadataQuery 0 (some text))).finished = false →
        (QueryTrackByExternalId library log (some text)).result = .ret none)
    ∧ ((library log (if category = TABLE_NAME
            then .GetPlaylistQuery id (if limit ≥ 0 then some (limit, offset) else none)
            else .CategoryTrackListQuery category id text
              (if limit ≥ 0 then some (limit, offset) else none))).finished = false →
        (QueryTracksByCategory TABLE_NAME library log (some category) id (some text)
          limit offset).result = .ret none)
    ∧ ((library log (.CategoryListQuery (some category) text)).finished = false →
        (QueryCategory library log (some category) (some text)).result = .ret none)
    ∧ ((library log (.AlbumListQuery category id text)).finished = false →
        (QueryAlbums library log (some category) id (some text)).result = .ret none)
    ∧ ((library log (.SavePlaylistQuery_Rename id text)).finished = false →
        (RenamePlaylist library log id (some text)).result = .ret false)
    ∧ ((library log (.DeletePlaylistQuery id)).finished = false →
        (DeletePlaylist library log id).result = .ret false)
    ∧ ((library log (.AppendPlaylistQuery id trackList offset)).finished = false →
        (appendToPlaylist library log id trackList offset).result = .ret false)
    ∧ (id ≠ 0 →
        (library log (.SavePlaylistQuery_Replace id trackList)).finished = false →
        (savePlaylist library log trackList name id).result = .ret 0)
    ∧ ((library log (.SavePlaylistQuery_Save name trackList)).finished = false →
        (savePlaylist library log trackList name 0).result = .ret 0)
    ∧ (∀ status result, status ≠ Status.Finished →
        library log (.ExternalIdListToTrackListQuery externalIds count) = .done status result →
        (SavePlaylistWithExternalIds library log externalIds count name id).result = .ret 0
        ∧ (AppendToPlaylistWithExternalIds library log id externalIds count offset).result
            = .ret false) := by
  refine ⟨?_, ?_, ?_, ?_, ?_, ?_, ?_, ?_, ?_, ?_, ?_, ?_⟩
  · intro h
    unfold QueryTracks
    cases h1 : library log (.SearchTrackListQuery text
        (if limit ≥ 0 then some (limit, offset) else none)) with
    | throws => simp [h1]
    | done status result => cases status <;> simp_all [Outcome.finished]
  · intro h
    unfold QueryTrackById
    cases h1 : library log (.TrackMetadataQuery id none) with
    | throws => simp [h1]
    | done status result => cases status <;> simp_all [Outcome.finished]
  · intro h
    unfold QueryTrackByExternalId
    by_cases hl : strlen text = 0
    · simp [hl]
    · cases h1 : library log (.TrackMetadataQuery 0 (some text)) with
      | throws => simp [h1, hl]
      | done status result => cases status <;> simp_all [Outcome.finished]
  · intro h
    unfold QueryTracksByCategory
    simp only [std_string]
    by_cases hc : category = TABLE_NAME
    · simp only [hc, if_true] at h ⊢
      cases h1 : library log
          (.GetPlaylistQuery id (if limit ≥ 0 then some (limit, offset) else none)) with
      | throws => simp [h1]
      | done status result => cases status <;> simp_all [Outcome.finished]
    · simp only [hc, if_false] at h ⊢
      cases h1 : library log (.CategoryTrackListQuery category id text
          (if limit ≥ 0 then some (limit, offset) else none)) with
      | throws => simp [h1]
      | done status result => cases status <;> simp_all [Outcome.finished]
  · intro h
    unfold QueryCategory
    cases h1 : library log (.CategoryListQuery (some category) text) with
    | throws => simp [h1]
    | done status result => cases status <;> simp_all [Outcome.finished]
  · intro h
    unfold QueryAlbums
    cases h1 : library log (.AlbumListQuery category id text) with
    | throws => simp [h1]
    | done status result => cases status <;> simp_all [Outcome.finished]
  · intro h
    unfold RenamePlaylist
    by_cases hl : strlen text = 0
    · simp [hl]
    · cases h1 : library log (.SavePlaylistQuery_Rename id text) with
      | throws => simp [h1, hl]
      | done status result => cases status <;> simp_all [Outcome.finished]
  · intro h
    unfold DeletePlaylist
    cases h1 : library log (.DeletePlaylistQuery id) with
    | throws => simp [h1]
    | done status result => cases status <;> simp_all [Outcome.finished]
  · intro h
    unfold appendToPlaylist
    cases h1 : library log (.AppendPlaylistQuery id trackList offset) with
    | throws => simp [h1]
    | done status result => cases status <;> simp_all [Outcome.finished]
  · intro hid h
    unfold savePlaylist
    rw [if_pos hid]
    cases h1 : library log (.SavePlaylistQuery_Replace id trackList) with
    | throws => simp [h1]
    | done status result => cases status <;> simp_all [Outcome.finished]
  · intro h
    unfold savePlaylist
    cases h1 : library log (.SavePlaylistQuery_Save name trackList) with
    | throws => simp [h1]
    | done status result => cases status <;> simp_all [Outcome.finished]
  · intro status result hs h1
    constructor
    · unfold SavePlaylistWithExternalIds
      split
      · rfl
      · simp [h1, hs]
    · unfold AppendToPlaylistWithExternalIds
      simp [h1, hs]

/-- C3: the two operations that resolve external ids enqueue the resolution
query outside any `try` block, so an exception raised by that `Enqueue`
leaves the operation: `SavePlaylistWithExternalIds(["a"], 1, "Mix", 0)` and
`AppendToPlaylistWithExternalIds(5, ["a"], 1, 0)` end by raising where the
sentinels 0 and false were due. -/
theorem C3_resolution_exception_escapes :
    SavePlaylistWithExternalIds throwingLibrary [] ["a"] 1 (some "Mix") 0
        = ⟨.raised, [.ExternalIdListToTrackListQuery ["a"] 1]⟩
    ∧ AppendToPlaylistWithExternalIds throwingLibrary [] 5 ["a"] 1 0
        = ⟨.raised, [.ExternalIdListToTrackListQuery ["a"] 1]⟩
    ∧ SavePlaylistWithIds throwingLibrary [] [1] 1 (some "Mix") 0
        = ⟨.ret 0, [.SavePlaylistQuery_Save (some "Mix") (.fromIds [1] 1)]⟩
    ∧ AppendToPlaylistWithIds throwingLibrary [] 5 [1] 1 0
        = ⟨.ret false, [.AppendPlaylistQuery 5 (.fromIds [1] 1) 0]⟩ := by
  have hm : strlen "Mix" ≠ 0 := by decide
  refine ⟨?_, ?_, ?_, ?_⟩
  · simp [SavePlaylistWithExternalIds, throwingLibrary, hm]
  · simp [AppendToPlaylistWithExternalIds, throwingLibrary]
  · simp [SavePlaylistWithIds, savePlaylist, returnInt64, throwingLibrary, hm, toInt64]
  · simp [AppendToPlaylistWithIds, appendToPlaylist, throwingLibrary]

/-! ## Filter normalization -/

/-- The three operations that test their filter against null build the same
query unit, with the empty filter, for a null and for an empty filter. -/
theorem null_filter_normalized (library : ILibrary) (log : List Query)
    (limit offset id : Int) (type name : Option String) :
    QueryTracks library log none limit offset = QueryTracks library log (some "") limit offset
    ∧ QueryCategory library log type none = QueryCategory library log type (some "")
    ∧ QueryAlbums library log name id none = QueryAlbums library log name id (some "")
    ∧ QueryAlbums_filter library log none = QueryAlbums_filter library log (some "") :=
  ⟨rfl, rfl, rfl, rfl⟩

/-- The playlist branch of `QueryTracksByCategory` does not look at the
filter at all. -/
theorem QueryTracksByCategory_playlists_ignores_filter (TABLE_NAME : String)
    (library : ILibrary) (log : List Query) (id limit offset : Int) (f g : Option String) :
    QueryTracksByCategory TABLE_NAME library log (some TABLE_NAME) id f limit offset
      = QueryTracksByCategory TABLE_NAME library log (some TABLE_NAME) id g limit offset := by
  simp [QueryTracksByCategory, std_string]

/-- C9: `QueryTracksByCategory` passes its filter to the
`CategoryTrackListQuery` constructor without the null test of its sibling
operations.  For the category "artist" the call with a null filter returns
null and enqueues nothing, on every engine, while the call with the empty
filter enqueues the unit built with the empty filter and, on an engine that
finishes it, returns its list: the two calls neither build the same unit nor
return the same result. -/
theorem C9_QueryTracksByCategory_null_filter (library : ILibrary) (log : List Query)
    (selectedId limit offset : Int) :
    QueryTracksByCategory "playlists" library log (some "artist") selectedId none limit offset
        = ⟨.ret none, log⟩
    ∧ (QueryTracksByCategory "playlists" library log (some "artist") selectedId (some "")
          limit offset).log
        = log ++ [.CategoryTrackListQuery "artist" selectedId ""
            (if limit ≥ 0 then some (limit, offset) else none)]
    ∧ QueryTracksByCategory "playlists" finishingLibrary [] (some "artist") 1 none (-1) 0
        = ⟨.ret none, []⟩
    ∧ QueryTracksByCategory "playlists" finishingLibrary [] (some "artist") 1 (some "") (-1) 0
        = ⟨.ret (some 1), [.CategoryTrackListQuery "artist" 1 "" none]⟩ := by
  have hcat : ¬ (("artist" : String) = "playlists") := by decide
  refine ⟨?_, ?_, ?_, ?_⟩
  · simp [QueryTracksByCategory, std_string, hcat]
  · unfold QueryTracksByCategory
    simp only [std_string, hcat, if_false]
    cases h1 : library log (.CategoryTrackListQuery "artist" selectedId ""
        (if limit ≥ 0 then some (limit, offset) else none)) with
    | throws => simp [h1]
    | done status result => cases status <;> simp [h1]
  · simp [QueryTracksByCategory, std_string, hcat]
  · simp [QueryTracksByCategory, std_string, hcat, finishingLibrary]

/-! ## Saving under an existing id without a name -/

/-- C10: with `playlistId` 5 and a null name, on an engine where the Replace
query finishes, each of the three `SavePlaylistWith...` methods passes the
guard, enqueues the Replace query and then calls `strlen` on the null name;
none of them returns 5.  When the Replace query fails they return 0. -/
theorem C10_null_name_strlen :
    SavePlaylistWithIds finishingLibrary [] [1, 2] 2 none 5
        = ⟨.nullDeref, [.SavePlaylistQuery_Replace 5 (.fromIds [1, 2] 2)]⟩
    ∧ SavePlaylistWithExternalIds finishingLibrary [] ["a"] 1 none 5
        = ⟨.nullDeref, [.ExternalIdListToTrackListQuery ["a"] 1,
                        .SavePlaylistQuery_Replace 5 (.resolved [1])]⟩
    ∧ SavePlaylistWithTrackList finishingLibrary [] (some [1, 2]) none 5
        = ⟨.nullDeref, [.SavePlaylistQuery_Replace 5 (.sdk (some [1, 2]))]⟩
    ∧ SavePlaylistWithIds failingLibrary [] [1, 2] 2 none 5
        = ⟨.ret 0, [.SavePlaylistQuery_Replace 5 (.fromIds [1, 2] 2)]⟩ := by
  refine ⟨?_, ?_, ?_, ?_⟩
  · simp [SavePlaylistWithIds, savePlaylist, returnInt64, finishingLibrary]
  · simp [SavePlaylistWithExternalIds, savePlaylist, returnInt64, finishingLibrary]
  · simp [SavePlaylistWithTrackList, savePlaylist, returnInt64, finishingLibrary]
  · simp [SavePlaylistWithIds, savePlaylist, returnInt64, failingLibrary, toInt64]

end LocalSimpleDataProvider
